import Mathlib

/-!
Verification development for the r-hat-live real-time session orchestrator.

This file gives a shallow embedding, in Lean, of the parts of the repository
that the specification's checkable sentences are about:

* `backend/tracker_service.py` — the multi-object tracking engine
  (`TrackerInstance.update`, `TrackerService.update_trackers`,
  `create_tracker`, `remove_tracker`);
* `backend/gemini_live_service_v2.py` — the bounded media queues
  (`send_video_frame`, the audio capture callback) and the `stop()` path;
* `backend/gemini_bridge_client.py` — the wire-message handler
  (`_handle_message`): transcription accumulation, turn completion and the
  tool-call branch;
* `backend/r_hat_app.py` — the `handle_function_call` tool handler.

Python floats are modelled as rationals (`ℚ`); the external OpenCV tracker
primitive (`tracker.update(frame) -> (success, pixel_box)`) is passed in as an
oracle argument, exactly as the spec treats it ("a capability the tracking
engine wraps").
-/

namespace RHat

/-! ## Tracker service data model (`backend/tracker_service.py`) -/

/-- Normalized bounding box, as the Python dict with keys x, y, width, height. -/
structure BBox where
  x : ℚ
  y : ℚ
  width : ℚ
  height : ℚ
  deriving Repr, DecidableEq

/-- A video frame, reduced to the only data the tracker code reads from it:
`h, w = frame.shape[:2]`. -/
structure Frame where
  h : ℕ
  w : ℕ
  deriving Repr, DecidableEq

/-- Outcome of one call to the underlying per-frame tracker primitive
`self.tracker.update(frame)`: a success flag and a pixel-space box
`(x, y, width, height)`. -/
structure PrimResult where
  success : Bool
  px : ℚ
  py : ℚ
  pw : ℚ
  ph : ℚ
  deriving Repr, DecidableEq

/-- State of one `TrackerInstance`. The field `inited` embeds the Python
attribute `initialized` (set to `True` by `TrackerInstance.initialize`). -/
structure TrackerInstance where
  tracker_id : String
  label : String
  bbox : BBox
  confidence : ℚ
  is_active : Bool
  inited : Bool
  deriving Repr, DecidableEq

/-- Python `max(0, min(v, 1.0))`, the per-component clamping used in
`TrackerInstance.update`. -/
def clamp01 (v : ℚ) : ℚ := max 0 (min v 1)

/-- Embedding of `TrackerInstance.update` (tracker_service.py lines 68-108).
The outcome `r` of the external call `self.tracker.update(frame)` is an
argument.  Returns the Python return triple (success, bbox_normalized,
confidence) together with the mutated instance. -/
def TrackerInstance.update (t : TrackerInstance) (frame : Frame) (r : PrimResult) :
    Bool × BBox × ℚ × TrackerInstance :=
  if t.inited = false then
    (false, t.bbox, 0, t)
  else if r.success then
    let b : BBox :=
      { x := clamp01 (r.px / (frame.w : ℚ))
        y := clamp01 (r.py / (frame.h : ℚ))
        width := clamp01 (r.pw / (frame.w : ℚ))
        height := clamp01 (r.ph / (frame.h : ℚ)) }
    let area := b.width * b.height
    let c : ℚ :=
      if area < 1/1000 ∨ area > 9/10 then max (3/10) (t.confidence - 1/10)
      else min 1 (t.confidence + 1/20)
    (true, b, c, { t with bbox := b, confidence := c })
  else
    (false, t.bbox, 0, { t with is_active := false, confidence := 0 })

/-- One entry of the results dict built by `TrackerService.update_trackers`. -/
structure TrackerReport where
  bbox : BBox
  label : String
  confidence : ℚ
  status : String
  deriving Repr, DecidableEq

/-- Body of the `for tracker_id, tracker in list(self.trackers.items())` loop
in `TrackerService.update_trackers` (lines 159-185): produces the report for
this tracker and its post-loop state. -/
def updateEntry (prim : String → PrimResult) (frame : Frame)
    (tid : String) (t : TrackerInstance) : TrackerReport × TrackerInstance :=
  if t.is_active = false then
    ({ bbox := t.bbox, label := t.label, confidence := 0, status := "lost" }, t)
  else
    let u := t.update frame (prim tid)
    if u.1 = true ∧ 3/10 < u.2.2.1 then
      ({ bbox := u.2.1, label := t.label, confidence := u.2.2.1, status := "tracking" },
        u.2.2.2)
    else
      ({ bbox := u.2.1, label := t.label, confidence := u.2.2.1, status := "lost" },
        { u.2.2.2 with is_active := false })

/-- Embedding of `TrackerService.update_trackers` (lines 138-187).  The
tracker map is an association list in dict insertion order; `prim` gives the
outcome of the underlying primitive for each tracker id.  Returns the results
dict and the mutated tracker map. -/
def update_trackers (prim : String → PrimResult) (frame : Frame)
    (ts : List (String × TrackerInstance)) :
    List (String × TrackerReport) × List (String × TrackerInstance) :=
  (ts.map fun p => (p.1, (updateEntry prim frame p.1 p.2).1),
   ts.map fun p => (p.1, (updateEntry prim frame p.1 p.2).2))

/-- Embedding of `TrackerService.create_tracker` (lines 118-136): the new
`TrackerInstance` starts with `confidence = 1.0`, `is_active = True`, the given
normalized bbox, and is initialized before insertion into the map.  The id is
chosen externally (`uuid.uuid4()`). -/
def create_tracker (tid : String) (bbox : BBox) (label : String)
    (ts : List (String × TrackerInstance)) : List (String × TrackerInstance) :=
  ts ++ [(tid, { tracker_id := tid, label := label, bbox := bbox,
                 confidence := 1, is_active := true, inited := true })]

/-- Embedding of `TrackerService.remove_tracker` (lines 189-202). -/
def remove_tracker (tid : String) (ts : List (String × TrackerInstance)) :
    Bool × List (String × TrackerInstance) :=
  (ts.any fun p => p.1 = tid, ts.filter fun p => p.1 ≠ tid)

/-- Embedding of `TrackerService.get_active_tracker_ids` (lines 208-210). -/
def get_active_tracker_ids (ts : List (String × TrackerInstance)) : List String :=
  (ts.filter fun p => p.2.is_active).map fun p => p.1

/-- Iterate `update_trackers` over a list of (primitive oracle, frame) steps,
keeping only the evolving tracker map. -/
def runUpdates (steps : List ((String → PrimResult) × Frame))
    (ts : List (String × TrackerInstance)) : List (String × TrackerInstance) :=
  steps.foldl (fun s st => (update_trackers st.1 st.2 s).2) ts

/-- Tracker maps reachable through the `TrackerService` API from the empty
service. -/
inductive ReachableTrackers : List (String × TrackerInstance) → Prop
  | nil : ReachableTrackers []
  | create (tid : String) (bbox : BBox) (label : String)
      {ts : List (String × TrackerInstance)} :
      ReachableTrackers ts → ReachableTrackers (create_tracker tid bbox label ts)
  | step (prim : String → PrimResult) (frame : Frame)
      {ts : List (String × TrackerInstance)} :
      ReachableTrackers ts → ReachableTrackers (update_trackers prim frame ts).2
  | remove (tid : String) {ts : List (String × TrackerInstance)} :
      ReachableTrackers ts → ReachableTrackers (remove_tracker tid ts).2
  | clear {ts : List (String × TrackerInstance)} :
      ReachableTrackers ts → ReachableTrackers []

/-! ## Bounded media queues (`backend/gemini_live_service_v2.py`)

Python `queue.Queue` is modelled by its maxsize and its item list.  A
`maxsize` of 0 is Python's "infinite" capacity: `queue.Queue()` (the audio
queues, line 63) never rejects a put, while `queue.Queue(maxsize=2)` (the
video queue, line 64) raises `queue.Full` from `put_nowait` once two items
are resident. -/

/-- A Python `queue.Queue`, by value. -/
structure PyQueue (α : Type) where
  maxsize : ℕ
  items : List α
  deriving Repr, DecidableEq

/-- Python `Queue.put_nowait(item)`: `none` models the `queue.Full`
exception, raised exactly when `0 < maxsize ≤ qsize()`. -/
def PyQueue.put_nowait (q : PyQueue α) (a : α) : Option (PyQueue α) :=
  if 0 < q.maxsize ∧ q.maxsize ≤ q.items.length then none
  else some { q with items := q.items ++ [a] }

/-- Outcome of a blocking `Queue.put(item)` call, as observed at the instant
of the call: either the item is enqueued at the tail, or the producer would
block (queue full). -/
inductive PutResult (α : Type) where
  | enqueued (q : PyQueue α)
  | wouldBlock
  deriving Repr, DecidableEq

/-- Python `Queue.put(item)` with the default `block=True, timeout=None`:
blocks exactly when `0 < maxsize ≤ qsize()`, otherwise appends. -/
def PyQueue.put (q : PyQueue α) (a : α) : PutResult α :=
  if 0 < q.maxsize ∧ q.maxsize ≤ q.items.length then .wouldBlock
  else .enqueued { q with items := q.items ++ [a] }

/-- Embedding of `GeminiLiveSession.send_video_frame` (v2, lines 116-127):
when running, `put_nowait` the (copied) frame and silently drop it on
`queue.Full`. -/
def send_video_frame (running : Bool) (q : PyQueue α) (f : α) : PyQueue α :=
  if running then
    match q.put_nowait f with
    | none => q
    | some q' => q'
  else q

/-- Embedding of the queue effect of the microphone capture callback
`audio_callback` (v2, lines 135-151): when running, a plain blocking
`put` of the converted PCM chunk onto `audio_input_queue`.  On the actually
constructed queue (`maxsize = 0`) the put always enqueues; the `wouldBlock`
case leaves the queue unchanged and is proved unreachable below. -/
def audio_callback_push (running : Bool) (q : PyQueue α) (a : α) : PyQueue α :=
  if running then
    match q.put a with
    | .enqueued q' => q'
    | .wouldBlock => q
  else q

/-- The video frame queue as constructed in `GeminiLiveSession.__init__`
(v2, line 64): `queue.Queue(maxsize=2)`. -/
def video_frame_queue0 : PyQueue ℕ := { maxsize := 2, items := [] }

/-- The audio input queue as constructed in `GeminiLiveSession.__init__`
(v2, line 63): `queue.Queue()`, i.e. maxsize 0 (no bound). -/
def audio_input_queue0 : PyQueue ℕ := { maxsize := 0, items := [] }

/-! ## Bridge wire messages and transcription accumulation
(`backend/gemini_bridge_client.py`) -/

/-- Inbound bridge messages dispatched by `GeminiBridgeClient._handle_message`
(lines 192-246), restricted to the fields the handler reads. -/
inductive BridgeMsg where
  | statusMsg (s : String)
  | errorMsg (e : String)
  | transcription (sender : String) (text : String)
  | turnComplete
  | aiState (s : String)
  | toolCall (tool : String) (objectName : String) (callId : String)
  | audioOutput (data : String)
  deriving Repr, DecidableEq

/-- The transcription accumulators of a session
(`current_input_transcription`, `current_output_transcription`). -/
structure TranscriptState where
  current_input_transcription : String
  current_output_transcription : String
  deriving Repr, DecidableEq

/-- Python's default `str.strip()` whitespace set (ASCII part). -/
def isPySpace (c : Char) : Bool :=
  c = ' ' ∨ c = '\t' ∨ c = '\n' ∨ c = '\r' ∨ c = '\x0b' ∨ c = '\x0c'

/-- Python `s.strip()`: drop leading and trailing whitespace. -/
def pyStrip (s : String) : String :=
  String.mk (((s.data.dropWhile isPySpace).reverse.dropWhile isPySpace).reverse)

/-- Transcription effect of `GeminiBridgeClient._handle_message` on one
message (lines 192-246): the new accumulator state and the list of finalized
utterances passed to `on_transcription`, in emission order.  (The identical
logic appears in `GeminiLiveSession._handle_response`, v2 lines 420-442.) -/
def handleMessage (s : TranscriptState) (m : BridgeMsg) :
    TranscriptState × List (String × String) :=
  match m with
  | .transcription sender text =>
    if sender = "USER" then
      ({ s with current_input_transcription := s.current_input_transcription ++ text }, [])
    else if sender = "MODEL" then
      ({ s with current_output_transcription := s.current_output_transcription ++ text }, [])
    else (s, [])
  | .turnComplete =>
    (⟨"", ""⟩,
      (if pyStrip s.current_input_transcription ≠ "" then
        [("USER", s.current_input_transcription)] else [])
      ++ (if pyStrip s.current_output_transcription ≠ "" then
        [("MODEL", s.current_output_transcription)] else []))
  | _ => (s, [])

/-- Process a message list, collecting all finalized utterances. -/
def processMessages (s : TranscriptState) (ms : List BridgeMsg) :
    TranscriptState × List (String × String) :=
  ms.foldl (fun acc m =>
    ((handleMessage acc.1 m).1, acc.2 ++ (handleMessage acc.1 m).2)) (s, [])

/-! ## Tool-call handling (`backend/r_hat_app.py` and the bridge) -/

/-- A YOLO detection as consumed by `handle_function_call`. -/
structure Detection where
  class_name : String
  bbox : BBox
  deriving Repr, DecidableEq

/-- Outcome of `RHatMainWindow.handle_function_call` (r_hat_app.py lines
490-550).  Every branch returns normally: the failure branches print a
message and `return` — they raise nothing and send nothing. -/
inductive HfcResult where
  | ignored
  | noFrame
  | noDetections
  | noMatch
  | lowSimilarity (score : ℚ)
  | tracked (score : ℚ)
  deriving Repr, DecidableEq

/-- Embedding of `RHatMainWindow.handle_function_call`.  The collaborator
outputs (YOLO detections, CLIP matches for `object_name`) are oracle inputs;
the CLIP acceptance threshold is 0.15 (line with `similarity_score < 0.15`). -/
def handle_function_call (function_name : String) (_object_name : String)
    (current_frame : Option Frame) (detections : List Detection)
    (clipMatches : List (Detection × ℚ)) : HfcResult :=
  if function_name ≠ "highlight_object" then .ignored
  else
    match current_frame with
    | none => .noFrame
    | some _ =>
      if detections = [] then .noDetections
      else
        match clipMatches with
        | [] => .noMatch
        | (_, score) :: _ =>
          if score < 3/20 then .lowSimilarity score else .tracked score

/-- Messages the bridge client writes back for a tool call. -/
inductive ToolOutMsg where
  | toolResponse (callId : String) (result : String)
  deriving Repr, DecidableEq

/-- The message of the RuntimeError CPython raises when `asyncio.run` is
invoked on a thread whose event loop is already running. -/
def runtime_error_msg : String :=
  "asyncio.run() cannot be called from a running event loop"

/-- Embedding of `GeminiBridgeClient.send_tool_response` (lines 113-118),
which is `asyncio.run(self._send_message('TOOL_RESPONSE', ...))`.
`loopRunning` records whether the calling thread's event loop is already
running: if it is, `asyncio.run` raises RuntimeError before `_send_message`
ever executes, so nothing is written.  Returns the messages actually written
together with the exception escaping the call, if any. -/
def send_tool_response (loopRunning : Bool) (callId result : String) :
    List ToolOutMsg × Option String :=
  if loopRunning then ([], some runtime_error_msg)
  else ([.toolResponse callId result], none)

/-- Embedding of the `TOOL_CALL` branch of
`GeminiBridgeClient._handle_message` (lines 229-240) for `highlightObject`.
The try block runs the `on_highlight_object` callback and then the
success-text `send_tool_response`; on an exception `e` from either, the
except branch calls `send_tool_response(call_id, "Error: " + str(e))`, and an
exception raised there is uncaught and propagates out of the branch.  In the
source this branch only ever executes inside the bridge thread's running
event loop (`_receive_loop` awaits `_handle_message` under the `asyncio.run`
of line 122), i.e. with `loopRunning = true`.  Returns the `TOOL_RESPONSE`
messages actually sent and the exception escaping the branch, if any. -/
def bridge_tool_call (loopRunning : Bool) (callback : String → Except String HfcResult)
    (objectName : String) (callId : String) : List ToolOutMsg × Option String :=
  match callback objectName with
  | .ok _ =>
    let s := send_tool_response loopRunning callId ("Successfully tracking " ++ objectName)
    match s.2 with
    | none => (s.1, none)
    | some e =>
      let s2 := send_tool_response loopRunning callId ("Error: " ++ e)
      (s.1 ++ s2.1, s2.2)
  | .error e =>
    let s2 := send_tool_response loopRunning callId ("Error: " ++ e)
    (s2.1, s2.2)

/-- The `handle_function_call` handler seen as an `on_highlight_object`
callback: it returns its outcome and never raises, so as a callback it is
always `Except.ok`. -/
def hfc_callback (current_frame : Option Frame) (detections : List Detection)
    (clipMatches : List (Detection × ℚ)) : String → Except String HfcResult :=
  fun objectName =>
    Except.ok (handle_function_call "highlight_object" objectName
      current_frame detections clipMatches)

/-! ## The stop path (`gemini_live_service_v2.py` / `gemini_live_service.py`)

`stop()` is an imperative method whose entire body is a sequence of externally
visible effects; it is embedded as its effect trace. -/

/-- One observable action of a `stop()` call. -/
inductive StopAction where
  | setRunningFalse
  | streamStop (name : String)
  | streamClose (name : String)
  | statusEvent (msg : String)
  | joinThread (name : String)
  | printStack
  deriving Repr, DecidableEq

/-- True exactly for a thread-join action. -/
def StopAction.isJoin : StopAction → Bool
  | .joinThread _ => true
  | _ => false

/-- Effect trace of `GeminiLiveSession.stop` in `gemini_live_service_v2.py`
(lines 99-114), for a session whose input/output streams were or were not
successfully opened. -/
def stop_actions_v2 (hasInput hasOutput : Bool) : List StopAction :=
  [.printStack, .setRunningFalse]
  ++ (if hasInput then [.streamStop "input", .streamClose "input"] else [])
  ++ (if hasOutput then [.streamStop "output", .streamClose "output"] else [])
  ++ [.statusEvent "Session stopped"]

/-- Effect trace of `GeminiLiveSession.stop` in `gemini_live_service.py`
(lines 102-116). -/
def stop_actions_v1 (hasInput hasOutput : Bool) : List StopAction :=
  [.setRunningFalse]
  ++ (if hasInput then [.streamStop "input", .streamClose "input"] else [])
  ++ (if hasOutput then [.streamStop "output", .streamClose "output"] else [])
  ++ [.statusEvent "Session stopped"]

/-! ## Concrete scenario data used by counterexamples and witnesses -/

/-- A well-formed normalized box, as in the spec's end-to-end scenario. -/
def exBBox : BBox := ⟨2/5, 2/5, 1/5, 1/5⟩

/-- A freshly created tracker instance for `exBBox` labelled "mug". -/
def exInstance : TrackerInstance :=
  { tracker_id := "t1", label := "mug", bbox := exBBox, confidence := 1,
    is_active := true, inited := true }

/-- A 100x100 frame. -/
def exFrame : Frame := ⟨100, 100⟩

/-- A successful primitive outcome whose pixel box sticks out past the right
edge once normalized: x = 50/100, width = 80/100. -/
def exPrim : PrimResult := ⟨true, 50, 0, 80, 50⟩

/-- Primitive oracle returning `exPrim` for every tracker. -/
def exPrimFun : String → PrimResult := fun _ => exPrim

/-- A tracker sitting just above the confidence floor (0.35). -/
def exLowInstance : TrackerInstance :=
  { tracker_id := "t1", label := "mug", bbox := exBBox, confidence := 7/20,
    is_active := true, inited := true }

/-- A successful primitive outcome with a degenerate (zero-area) box, which
drives confidence down. -/
def exZeroPrim : PrimResult := ⟨true, 0, 0, 0, 0⟩

/-- Primitive oracle returning `exZeroPrim` for every tracker. -/
def exZeroPrimFun : String → PrimResult := fun _ => exZeroPrim

/-- A tracker that is already lost. -/
def exLostInstance : TrackerInstance :=
  { tracker_id := "t2", label := "cup", bbox := exBBox, confidence := 0,
    is_active := false, inited := true }

/-- The report produced for `exInstance` by one `update_trackers` step with
`exPrimFun` on `exFrame`. -/
def exReport : TrackerReport := ⟨⟨1/2, 0, 4/5, 1/2⟩, "mug", 1, "tracking"⟩

/-! ## Basic lemmas about the tracker embedding -/

theorem clamp01_nonneg (v : ℚ) : 0 ≤ clamp01 v := le_max_left 0 _

theorem clamp01_le_one (v : ℚ) : clamp01 v ≤ 1 :=
  max_le (by norm_num) (min_le_right _ _)

theorem update_fst_of_success {t : TrackerInstance} {r : PrimResult} (frame : Frame)
    (hin : t.inited = true) (hs : r.success = true) :
    (t.update frame r).1 = true := by
  simp [TrackerInstance.update, hin, hs]

theorem update_bbox_of_success {t : TrackerInstance} {r : PrimResult} (frame : Frame)
    (hin : t.inited = true) (hs : r.success = true) :
    (t.update frame r).2.1 =
      ⟨clamp01 (r.px / (frame.w : ℚ)), clamp01 (r.py / (frame.h : ℚ)),
       clamp01 (r.pw / (frame.w : ℚ)), clamp01 (r.ph / (frame.h : ℚ))⟩ := by
  simp [TrackerInstance.update, hin, hs]

theorem update_conf_of_success {t : TrackerInstance} {r : PrimResult} (frame : Frame)
    (hin : t.inited = true) (hs : r.success = true) :
    (t.update frame r).2.2.1 =
      if (t.update frame r).2.1.width * (t.update frame r).2.1.height < 1/1000 ∨
          (t.update frame r).2.1.width * (t.update frame r).2.1.height > 9/10 then
        max (3/10) (t.confidence - 1/10)
      else
        min 1 (t.confidence + 1/20) := by
  simp [TrackerInstance.update, hin, hs]

theorem update_inst_of_success {t : TrackerInstance} {r : PrimResult} (frame : Frame)
    (hin : t.inited = true) (hs : r.success = true) :
    (t.update frame r).2.2.2 =
      { t with bbox := (t.update frame r).2.1, confidence := (t.update frame r).2.2.1 } := by
  simp [TrackerInstance.update, hin, hs]

theorem updateEntry_inactive {t : TrackerInstance} (prim : String → PrimResult)
    (frame : Frame) (tid : String) (h : t.is_active = false) :
    updateEntry prim frame tid t =
      ({ bbox := t.bbox, label := t.label, confidence := 0, status := "lost" }, t) := by
  simp [updateEntry, h]

theorem updateEntry_active_report {t : TrackerInstance} (prim : String → PrimResult)
    (frame : Frame) (tid : String) (h : t.is_active = true) :
    ((updateEntry prim frame tid t).1).bbox = (t.update frame (prim tid)).2.1 ∧
    ((updateEntry prim frame tid t).1).confidence = (t.update frame (prim tid)).2.2.1 ∧
    ((updateEntry prim frame tid t).1).label = t.label := by
  simp [updateEntry, h]
  split <;> simp

/-! ## Claim C1 -/

/-- C1 (counterexample): the claimed invariant `x + width <= 1` after clamping
is false on the code.  With a 100x100 frame and a successful primitive
outcome whose pixel box is (50, 0, 80, 50), `update_trackers` reports the
tracker as tracking with the normalized, per-component-clamped box
(0.5, 0, 0.8, 0.5), whose `x + width = 1.3 > 1`: the code clamps each
component to [0, 1] separately and never enforces `x + width <= 1`. -/
theorem C1_counterexample :
    (update_trackers exPrimFun exFrame [("t1", exInstance)]).1 =
      [("t1", exReport)] ∧
    ¬ (exReport.bbox.x + exReport.bbox.width ≤ 1) := by
  constructor
  · norm_num [update_trackers, updateEntry, TrackerInstance.update, exPrimFun,
      exPrim, exFrame, exInstance, exReport, exBBox, clamp01]
  · norm_num [exReport]

/-- C1 (amended): every normalized bounding box reported by
`update_trackers` for a tracker whose underlying primitive update succeeded
has all four components in [0, 1] (each component is clamped by
`max(0, min(v, 1.0))`); the claimed sum constraints `x + width <= 1` and
`y + height <= 1` do not hold and are dropped. -/
theorem C1_bbox_components_in_unit_interval
    (prim : String → PrimResult) (frame : Frame)
    (ts : List (String × TrackerInstance)) (tid : String) (t : TrackerInstance)
    (hmem : (tid, t) ∈ ts) (hact : t.is_active = true) (hin : t.inited = true)
    (hs : (prim tid).success = true) :
    ∃ rep : TrackerReport, (tid, rep) ∈ (update_trackers prim frame ts).1 ∧
      0 ≤ rep.bbox.x ∧ rep.bbox.x ≤ 1 ∧ 0 ≤ rep.bbox.y ∧ rep.bbox.y ≤ 1 ∧
      0 ≤ rep.bbox.width ∧ rep.bbox.width ≤ 1 ∧
      0 ≤ rep.bbox.height ∧ rep.bbox.height ≤ 1 := by
  refine ⟨(updateEntry prim frame tid t).1, ?_, ?_⟩
  · exact List.mem_map_of_mem (fun p => (p.1, (updateEntry prim frame p.1 p.2).1)) hmem
  · have hb := (updateEntry_active_report prim frame tid hact).1
    rw [hb, update_bbox_of_success frame hin hs]
    exact ⟨clamp01_nonneg _, clamp01_le_one _, clamp01_nonneg _, clamp01_le_one _,
      clamp01_nonneg _, clamp01_le_one _, clamp01_nonneg _, clamp01_le_one _⟩

/-- C1 witness: the amended theorem applied to the concrete scenario. -/
theorem C1_witness :
    (("t1", exInstance) ∈ [("t1", exInstance)] ∧ exInstance.is_active = true ∧
      exInstance.inited = true ∧ exPrim.success = true) ∧
    (∃ rep : TrackerReport,
      ("t1", rep) ∈ (update_trackers exPrimFun exFrame [("t1", exInstance)]).1 ∧
      0 ≤ rep.bbox.x ∧ rep.bbox.x ≤ 1 ∧ 0 ≤ rep.bbox.y ∧ rep.bbox.y ≤ 1 ∧
      0 ≤ rep.bbox.width ∧ rep.bbox.width ≤ 1 ∧
      0 ≤ rep.bbox.height ∧ rep.bbox.height ≤ 1) :=
  ⟨⟨by simp, rfl, rfl, rfl⟩,
    C1_bbox_components_in_unit_interval exPrimFun exFrame [("t1", exInstance)]
      "t1" exInstance (by simp) rfl rfl rfl⟩

/-! ## Claim C2 -/

/-- C2: for a tracker in state tracking whose primitive succeeds on this
frame, `update_trackers` adjusts confidence exactly as claimed: if the
normalized area `width * height` of the reported box falls outside the closed
interval [0.001, 0.9], confidence becomes `max(0.3, old - 0.1)` (decrease by
0.1, floor 0.3); otherwise it becomes `min(1.0, old + 0.05)` (increase by
0.05, ceiling 1.0).  Boundary areas 0.001 and 0.9 take the increase branch,
matching the strict comparisons in the source. -/
theorem C2_confidence_adjustment
    (prim : String → PrimResult) (frame : Frame)
    (ts : List (String × TrackerInstance)) (tid : String) (t : TrackerInstance)
    (hmem : (tid, t) ∈ ts) (hact : t.is_active = true) (hin : t.inited = true)
    (hs : (prim tid).success = true) :
    ∃ rep : TrackerReport, (tid, rep) ∈ (update_trackers prim frame ts).1 ∧
      (rep.bbox.width * rep.bbox.height ∉ Set.Icc (1/1000 : ℚ) (9/10) →
        rep.confidence = max (3/10) (t.confidence - 1/10)) ∧
      (rep.bbox.width * rep.bbox.height ∈ Set.Icc (1/1000 : ℚ) (9/10) →
        rep.confidence = min 1 (t.confidence + 1/20)) := by
  refine ⟨(updateEntry prim frame tid t).1, ?_, ?_, ?_⟩
  · exact List.mem_map_of_mem (fun p => (p.1, (updateEntry prim frame p.1 p.2).1)) hmem
  all_goals
    have hb := (updateEntry_active_report prim frame tid hact).1
    have hc := (updateEntry_active_report prim frame tid hact).2.1
    have hcs := update_conf_of_success (t := t) (r := prim tid) frame hin hs
    rw [hb, hc, hcs]
    intro hA
    rw [Set.mem_Icc] at hA
  · rw [if_pos]
    push_neg at hA
    rcases lt_or_le ((t.update frame (prim tid)).2.1.width *
        (t.update frame (prim tid)).2.1.height) (1/1000 : ℚ) with h | h
    · exact Or.inl h
    · exact Or.inr (hA h)
  · rw [if_neg]
    push_neg
    exact ⟨hA.1, hA.2⟩

/-- C2 witness: the theorem applied to the concrete scenario; the reported
box (0.5, 0, 0.8, 0.5) has area 0.4 inside [0.001, 0.9], so confidence goes
from 1.0 to `min(1, 1.05) = 1`. -/
theorem C2_witness :
    (("t1", exInstance) ∈ [("t1", exInstance)] ∧ exInstance.is_active = true ∧
      exInstance.inited = true ∧ exPrim.success = true) ∧
    (∃ rep : TrackerReport,
      ("t1", rep) ∈ (update_trackers exPrimFun exFrame [("t1", exInstance)]).1 ∧
      (rep.bbox.width * rep.bbox.height ∉ Set.Icc (1/1000 : ℚ) (9/10) →
        rep.confidence = max (3/10) (exInstance.confidence - 1/10)) ∧
      (rep.bbox.width * rep.bbox.height ∈ Set.Icc (1/1000 : ℚ) (9/10) →
        rep.confidence = min 1 (exInstance.confidence + 1/20))) :=
  ⟨⟨by simp, rfl, rfl, rfl⟩,
    C2_confidence_adjustment exPrimFun exFrame [("t1", exInstance)]
      "t1" exInstance (by simp) rfl rfl rfl⟩

/-! ## Claim C3 -/

theorem update_conf_le_one {t : TrackerInstance} (frame : Frame) (r : PrimResult)
    (h : t.confidence ≤ 1) :
    (t.update frame r).2.2.1 ≤ 1 ∧ (t.update frame r).2.2.2.confidence ≤ 1 := by
  unfold TrackerInstance.update
  split
  · exact ⟨zero_le_one, h⟩
  · split
    · dsimp only
      constructor <;>
      · split
        · exact max_le (by norm_num) (by linarith)
        · exact min_le_left _ _
    · exact ⟨zero_le_one, zero_le_one⟩

theorem updateEntry_conf_le_one {t : TrackerInstance} (prim : String → PrimResult)
    (frame : Frame) (tid : String) (h : t.confidence ≤ 1) :
    (updateEntry prim frame tid t).1.confidence ≤ 1 ∧
    (updateEntry prim frame tid t).2.confidence ≤ 1 := by
  unfold updateEntry
  split
  · exact ⟨zero_le_one, h⟩
  · have hu := update_conf_le_one frame (prim tid) h
    dsimp only
    split
    · exact ⟨hu.1, hu.2⟩
    · exact ⟨hu.1, hu.2⟩

/-- In every tracker map reachable through the service API, all stored
confidences are at most 1 (they start at 1.0 and each step keeps them
there). -/
theorem reachable_conf_le_one {ts : List (String × TrackerInstance)}
    (h : ReachableTrackers ts) :
    ∀ p ∈ ts, p.2.confidence ≤ 1 := by
  induction h with
  | nil => intro p hp; simp at hp
  | create tid bbox label _ ih =>
    intro p hp
    unfold create_tracker at hp
    rcases List.mem_append.mp hp with h1 | h2
    · exact ih p h1
    · rw [List.mem_singleton] at h2
      subst h2
      exact le_refl 1
  | step prim frame _ ih =>
    intro p hp
    unfold update_trackers at hp
    obtain ⟨q, hq, rfl⟩ := List.mem_map.mp hp
    exact (updateEntry_conf_le_one prim frame q.1 (ih q hq)).2
  | remove tid _ ih =>
    intro p hp
    unfold remove_tracker at hp
    exact ih p (List.mem_of_mem_filter hp)
  | clear _ => intro p hp; simp at hp

theorem updateEntry_active_not_tracking {t : TrackerInstance}
    (prim : String → PrimResult) (frame : Frame) (tid : String)
    (hact : t.is_active = true)
    (hng : ¬((t.update frame (prim tid)).1 = true ∧
        3/10 < (t.update frame (prim tid)).2.2.1)) :
    updateEntry prim frame tid t =
      ({ bbox := (t.update frame (prim tid)).2.1, label := t.label,
         confidence := (t.update frame (prim tid)).2.2.1, status := "lost" },
        { (t.update frame (prim tid)).2.2.2 with is_active := false }) := by
  unfold updateEntry
  rw [if_neg (by simp [hact] : ¬ t.is_active = false)]
  dsimp only
  rw [if_neg hng]

theorem updateEntry_active_tracking {t : TrackerInstance}
    (prim : String → PrimResult) (frame : Frame) (tid : String)
    (hact : t.is_active = true)
    (hg : (t.update frame (prim tid)).1 = true ∧
        3/10 < (t.update frame (prim tid)).2.2.1) :
    updateEntry prim frame tid t =
      ({ bbox := (t.update frame (prim tid)).2.1, label := t.label,
         confidence := (t.update frame (prim tid)).2.2.1, status := "tracking" },
        (t.update frame (prim tid)).2.2.2) := by
  unfold updateEntry
  rw [if_neg (by simp [hact] : ¬ t.is_active = false)]
  dsimp only
  rw [if_pos hg]

/-- A report with confidence at or below 0.3 comes out of the loop body with
status "lost", and the stored instance is deactivated. -/
theorem updateEntry_low_conf_lost {t : TrackerInstance}
    (prim : String → PrimResult) (frame : Frame) (tid : String)
    (hc : (updateEntry prim frame tid t).1.confidence ≤ 3/10) :
    (updateEntry prim frame tid t).1.status = "lost" ∧
    (updateEntry prim frame tid t).2.is_active = false := by
  by_cases ha : t.is_active = false
  · rw [updateEntry_inactive prim frame tid ha]
    exact ⟨rfl, ha⟩
  · have ha' : t.is_active = true := by
      cases hb : t.is_active
      · exact absurd hb ha
      · rfl
    by_cases hg : (t.update frame (prim tid)).1 = true ∧
        3/10 < (t.update frame (prim tid)).2.2.1
    · rw [updateEntry_active_tracking prim frame tid ha' hg] at hc
      exact absurd hc (not_le.mpr hg.2)
    · rw [updateEntry_active_not_tracking prim frame tid ha' hg]
      exact ⟨rfl, rfl⟩

/-- C3: in any reachable service state, every report produced by
`update_trackers` satisfies: if its status is "tracking" then its confidence
lies in (0.3, 1] — it never exceeds 1.0 and never drops to or below 0.3
while tracking; and if its confidence is at or below 0.3 then its status is
"lost" and the tracker is marked lost (deactivated) in the resulting state on
that very update. -/
theorem C3_confidence_window
    (ts : List (String × TrackerInstance)) (hreach : ReachableTrackers ts)
    (prim : String → PrimResult) (frame : Frame) (tid : String) (rep : TrackerReport)
    (hmem : (tid, rep) ∈ (update_trackers prim frame ts).1) :
    (rep.status = "tracking" → 3/10 < rep.confidence ∧ rep.confidence ≤ 1) ∧
    (rep.confidence ≤ 3/10 → rep.status = "lost" ∧
      ∃ t' : TrackerInstance, (tid, t') ∈ (update_trackers prim frame ts).2 ∧
        t'.is_active = false) := by
  obtain ⟨q, hq, heq⟩ := List.mem_map.mp hmem
  injection heq with h1 h2
  subst h1
  subst h2
  have hconf := reachable_conf_le_one hreach q hq
  constructor
  · intro hst
    refine ⟨?_, ?_⟩
    · by_cases ha : q.2.is_active = false
      · rw [updateEntry_inactive prim frame q.1 ha] at hst
        dsimp only at hst
        exact absurd hst (by decide)
      · have ha' : q.2.is_active = true := by
          cases hb : q.2.is_active
          · exact absurd hb ha
          · rfl
        by_cases hg : (q.2.update frame (prim q.1)).1 = true ∧
            3/10 < (q.2.update frame (prim q.1)).2.2.1
        · rw [updateEntry_active_tracking prim frame q.1 ha' hg]
          exact hg.2
        · rw [updateEntry_active_not_tracking prim frame q.1 ha' hg] at hst
          dsimp only at hst
          exact absurd hst (by decide)
    · exact (updateEntry_conf_le_one prim frame q.1 hconf).1
  · intro hc
    refine ⟨(updateEntry_low_conf_lost prim frame q.1 hc).1,
      (updateEntry prim frame q.1 q.2).2, ?_,
      (updateEntry_low_conf_lost prim frame q.1 hc).2⟩
    exact List.mem_map_of_mem (fun p => (p.1, (updateEntry prim frame p.1 p.2).2)) hq

/-- C3 witness: the theorem applied to the service state reached by one
`create_tracker` from the empty service, updated with a successful primitive
outcome. -/
theorem C3_witness :
    (("t1", exReport) ∈
      (update_trackers exPrimFun exFrame (create_tracker "t1" exBBox "mug" [])).1) ∧
    ((exReport.status = "tracking" → 3/10 < exReport.confidence ∧ exReport.confidence ≤ 1) ∧
      (exReport.confidence ≤ 3/10 → exReport.status = "lost" ∧
        ∃ t' : TrackerInstance,
          ("t1", t') ∈ (update_trackers exPrimFun exFrame
            (create_tracker "t1" exBBox "mug" [])).2 ∧
          t'.is_active = false)) :=
  ⟨by norm_num [update_trackers, updateEntry, TrackerInstance.update, create_tracker,
      exPrimFun, exPrim, exFrame, exReport, exBBox, clamp01],
    C3_confidence_window _ (ReachableTrackers.create "t1" exBBox "mug" ReachableTrackers.nil)
      exPrimFun exFrame "t1" exReport
      (by norm_num [update_trackers, updateEntry, TrackerInstance.update, create_tracker,
        exPrimFun, exPrim, exFrame, exReport, exBBox, clamp01])⟩

/-! ## Claim C4 -/

theorem lookup_map_entries {β : Type} (f : String → TrackerInstance → β) (tid : String) :
    ∀ ts : List (String × TrackerInstance),
      List.lookup tid (ts.map fun p => (p.1, f p.1 p.2)) =
        (List.lookup tid ts).map fun t => f tid t := by
  intro ts
  induction ts with
  | nil => rfl
  | cons p rest ih =>
    rcases p with ⟨k, v⟩
    by_cases h : tid = k
    · subst h
      simp [List.lookup]
    · have hb : (tid == k) = false := beq_eq_false_iff_ne.mpr h
      simp [List.lookup, hb, ih]

theorem lookup_update_trackers_fst (prim : String → PrimResult) (frame : Frame)
    {ts : List (String × TrackerInstance)} {tid : String} {t : TrackerInstance}
    (h : List.lookup tid ts = some t) :
    List.lookup tid (update_trackers prim frame ts).1 =
      some (updateEntry prim frame tid t).1 := by
  unfold update_trackers
  rw [show (fun p : String × TrackerInstance => (p.1, (updateEntry prim frame p.1 p.2).1))
        = fun p : String × TrackerInstance =>
            (p.1, (fun k u => (updateEntry prim frame k u).1) p.1 p.2) from rfl,
    lookup_map_entries (fun k u => (updateEntry prim frame k u).1) tid ts, h]
  rfl

theorem lookup_update_trackers_snd (prim : String → PrimResult) (frame : Frame)
    {ts : List (String × TrackerInstance)} {tid : String} {t : TrackerInstance}
    (h : List.lookup tid ts = some t) :
    List.lookup tid (update_trackers prim frame ts).2 =
      some (updateEntry prim frame tid t).2 := by
  unfold update_trackers
  rw [show (fun p : String × TrackerInstance => (p.1, (updateEntry prim frame p.1 p.2).2))
        = fun p : String × TrackerInstance =>
            (p.1, (fun k u => (updateEntry prim frame k u).2) p.1 p.2) from rfl,
    lookup_map_entries (fun k u => (updateEntry prim frame k u).2) tid ts, h]
  rfl

theorem runUpdates_nil (ts : List (String × TrackerInstance)) : runUpdates [] ts = ts := rfl

theorem runUpdates_cons (st : (String → PrimResult) × Frame)
    (steps : List ((String → PrimResult) × Frame)) (ts : List (String × TrackerInstance)) :
    runUpdates (st :: steps) ts = runUpdates steps (update_trackers st.1 st.2 ts).2 := rfl

/-- A lost (inactive) tracker is left untouched by any number of
`update_trackers` steps, whatever the primitive outcomes. -/
theorem runUpdates_lookup_inactive (steps : List ((String → PrimResult) × Frame))
    {ts : List (String × TrackerInstance)} {tid : String} {t : TrackerInstance}
    (h : List.lookup tid ts = some t) (ha : t.is_active = false) :
    List.lookup tid (runUpdates steps ts) = some t := by
  induction steps generalizing ts with
  | nil => exact h
  | cons st rest ih =>
    rw [runUpdates_cons]
    refine ih ?_
    have hsnd := lookup_update_trackers_snd st.1 st.2 h
    rw [updateEntry_inactive st.1 st.2 tid ha] at hsnd
    exact hsnd

/-- C4: a tracker that is lost (inactive) is reported by every subsequent
`update_trackers` call with its last known bounding box and status "lost",
and it is never handed to the underlying primitive again: the report and the
stored state are the same for every primitive oracle `prim` and every frame
(the statement quantifies over them), across any number of further update
steps. -/
theorem C4_lost_trackers_frozen
    (ts : List (String × TrackerInstance)) (tid : String) (t : TrackerInstance)
    (h : List.lookup tid ts = some t) (ha : t.is_active = false)
    (steps : List ((String → PrimResult) × Frame))
    (prim : String → PrimResult) (frame : Frame) :
    List.lookup tid (update_trackers prim frame (runUpdates steps ts)).1 =
      some { bbox := t.bbox, label := t.label, confidence := 0, status := "lost" } ∧
    List.lookup tid (runUpdates steps ts) = some t := by
  have hst := runUpdates_lookup_inactive steps h ha
  refine ⟨?_, hst⟩
  rw [lookup_update_trackers_fst prim frame hst, updateEntry_inactive prim frame tid ha]

/-- C4 witness: a lost tracker, one intervening update step, then a further
update with a different primitive oracle. -/
theorem C4_witness :
    (List.lookup "t2" [("t2", exLostInstance)] = some exLostInstance ∧
      exLostInstance.is_active = false) ∧
    (List.lookup "t2" (update_trackers exZeroPrimFun exFrame
        (runUpdates [(exPrimFun, exFrame)] [("t2", exLostInstance)])).1 =
      some { bbox := exLostInstance.bbox, label := exLostInstance.label,
             confidence := 0, status := "lost" } ∧
      List.lookup "t2" (runUpdates [(exPrimFun, exFrame)] [("t2", exLostInstance)]) =
        some exLostInstance) :=
  ⟨⟨rfl, rfl⟩,
    C4_lost_trackers_frozen [("t2", exLostInstance)] "t2" exLostInstance rfl rfl
      [(exPrimFun, exFrame)] exZeroPrimFun exFrame⟩

/-! ## Claim C10 -/

/-- C10: once a tracker goes lost, later reports carry confidence exactly 0.
If a tracker is active and its successful update drives confidence to or
below the 0.3 floor, then the `update_trackers` call in which this happens
reports it with that confidence (e.g. exactly 0.3) and status "lost", and
every subsequent `update_trackers` call — any number of steps later, for any
primitive outcomes — reports it with confidence exactly 0 and status "lost",
keeping the box from the transition update. -/
theorem C10_lost_reported_confidence_zero
    (ts : List (String × TrackerInstance)) (tid : String) (t : TrackerInstance)
    (prim : String → PrimResult) (frame : Frame)
    (h : List.lookup tid ts = some t) (ha : t.is_active = true) (hin : t.inited = true)
    (hs : (prim tid).success = true)
    (hc : (t.update frame (prim tid)).2.2.1 ≤ 3/10) :
    List.lookup tid (update_trackers prim frame ts).1 =
      some { bbox := (t.update frame (prim tid)).2.1, label := t.label,
             confidence := (t.update frame (prim tid)).2.2.1, status := "lost" } ∧
    ∀ (steps : List ((String → PrimResult) × Frame))
      (prim' : String → PrimResult) (frame' : Frame),
      List.lookup tid (update_trackers prim' frame'
          (runUpdates steps (update_trackers prim frame ts).2)).1 =
        some { bbox := (t.update frame (prim tid)).2.1, label := t.label,
               confidence := 0, status := "lost" } := by
  have hng : ¬((t.update frame (prim tid)).1 = true ∧
      3/10 < (t.update frame (prim tid)).2.2.1) :=
    fun hg => absurd hc (not_le.mpr hg.2)
  have hentry := updateEntry_active_not_tracking prim frame tid ha hng
  constructor
  · rw [lookup_update_trackers_fst prim frame h, hentry]
  · intro steps prim' frame'
    have hsnd := lookup_update_trackers_snd prim frame h
    rw [hentry] at hsnd
    have hstay := runUpdates_lookup_inactive steps hsnd rfl
    rw [lookup_update_trackers_fst prim' frame' hstay,
      updateEntry_inactive prim' frame' tid rfl]
    rw [update_inst_of_success frame hin hs]

/-- C10 witness: a tracker at confidence 0.35 hits the 0.3 floor on a
successful zero-area update (transition report has confidence 0.3), and the
very next update reports confidence 0. -/
theorem C10_witness :
    (List.lookup "t1" [("t1", exLowInstance)] = some exLowInstance ∧
      exLowInstance.is_active = true ∧ exLowInstance.inited = true ∧
      (exZeroPrimFun "t1").success = true ∧
      (exLowInstance.update exFrame (exZeroPrimFun "t1")).2.2.1 ≤ 3/10) ∧
    (List.lookup "t1" (update_trackers exZeroPrimFun exFrame [("t1", exLowInstance)]).1 =
      some { bbox := (exLowInstance.update exFrame (exZeroPrimFun "t1")).2.1,
             label := exLowInstance.label,
             confidence := (exLowInstance.update exFrame (exZeroPrimFun "t1")).2.2.1,
             status := "lost" } ∧
      List.lookup "t1" (update_trackers exPrimFun exFrame
          (runUpdates [] (update_trackers exZeroPrimFun exFrame [("t1", exLowInstance)]).2)).1 =
        some { bbox := (exLowInstance.update exFrame (exZeroPrimFun "t1")).2.1,
               label := exLowInstance.label, confidence := 0, status := "lost" }) :=
  ⟨⟨rfl, rfl, rfl, rfl,
      by norm_num [TrackerInstance.update, exLowInstance, exZeroPrimFun, exZeroPrim,
        exFrame, exBBox, clamp01]⟩,
    ⟨(C10_lost_reported_confidence_zero [("t1", exLowInstance)] "t1" exLowInstance
        exZeroPrimFun exFrame rfl rfl rfl rfl
        (by norm_num [TrackerInstance.update, exLowInstance, exZeroPrimFun, exZeroPrim,
          exFrame, exBBox, clamp01])).1,
      (C10_lost_reported_confidence_zero [("t1", exLowInstance)] "t1" exLowInstance
        exZeroPrimFun exFrame rfl rfl rfl rfl
        (by norm_num [TrackerInstance.update, exLowInstance, exZeroPrimFun, exZeroPrim,
          exFrame, exBBox, clamp01])).2 [] exPrimFun exFrame⟩⟩

/-! ## Claim C5 -/

theorem send_video_frame_invariant {α : Type} (q : PyQueue α) (f : α)
    (hcap : q.maxsize = 2) (hlen : q.items.length ≤ 2) :
    (send_video_frame true q f).maxsize = 2 ∧
    (send_video_frame true q f).items.length ≤ 2 := by
  unfold send_video_frame PyQueue.put_nowait
  rw [if_pos rfl]
  split
  · exact ⟨hcap, hlen⟩
  · next q' heq =>
    split at heq
    · exact absurd heq (by simp)
    · next hroom =>
      rw [Option.some_inj] at heq
      rw [← heq]
      refine ⟨hcap, ?_⟩
      rw [hcap] at hroom
      simp only [List.length_append, List.length_cons, List.length_nil]
      omega

theorem foldl_send_video_invariant {α : Type} (fs : List α) (q : PyQueue α)
    (hcap : q.maxsize = 2) (hlen : q.items.length ≤ 2) :
    (fs.foldl (send_video_frame true) q).maxsize = 2 ∧
    (fs.foldl (send_video_frame true) q).items.length ≤ 2 := by
  induction fs generalizing q with
  | nil => exact ⟨hcap, hlen⟩
  | cons f rest ih =>
    simp only [List.foldl_cons]
    exact ih _ (send_video_frame_invariant q f hcap hlen).1
      (send_video_frame_invariant q f hcap hlen).2

/-- C5: the video queue (capacity 2, fixed at construction) never blocks the
producer and never exceeds its capacity.  Each `send_video_frame` call on a
running session returns immediately with one of two outcomes — the frame is
appended, or (queue already holding 2 frames) the queue is returned unchanged,
i.e. the incoming frame is discarded and the resident frames are preserved
(drop-newest) — and after any sequence of pushes the queue length is at most
2. -/
theorem C5_video_queue_drop_newest {α : Type} (q : PyQueue α) (fs : List α) (f : α)
    (hcap : q.maxsize = 2) (hlen : q.items.length ≤ 2) :
    (fs.foldl (send_video_frame true) q).items.length ≤ 2 ∧
    (q.items.length = 2 → send_video_frame true q f = q) ∧
    (q.items.length < 2 → (send_video_frame true q f).items = q.items ++ [f]) ∧
    (send_video_frame true q f = q ∨
      (send_video_frame true q f).items = q.items ++ [f]) := by
  have hfull : q.items.length = 2 → send_video_frame true q f = q := by
    intro h2
    unfold send_video_frame PyQueue.put_nowait
    rw [if_pos rfl, if_pos (by omega : 0 < q.maxsize ∧ q.maxsize ≤ q.items.length)]
  have hroom : q.items.length < 2 →
      (send_video_frame true q f).items = q.items ++ [f] := by
    intro h2
    unfold send_video_frame PyQueue.put_nowait
    rw [if_pos rfl, if_neg (by omega : ¬(0 < q.maxsize ∧ q.maxsize ≤ q.items.length))]
  refine ⟨(foldl_send_video_invariant fs q hcap hlen).2, hfull, hroom, ?_⟩
  rcases lt_or_le q.items.length 2 with h2 | h2
  · exact Or.inr (hroom h2)
  · exact Or.inl (hfull (le_antisymm hlen h2))

/-- C5 witness: a full capacity-2 queue, a burst of three pushes, and one
push on the full queue. -/
theorem C5_witness :
    ((PyQueue.mk 2 [7, 8] : PyQueue ℕ).maxsize = 2 ∧
      (PyQueue.mk 2 [7, 8] : PyQueue ℕ).items.length ≤ 2) ∧
    (([1, 2, 3].foldl (send_video_frame true) (PyQueue.mk 2 [7, 8])).items.length ≤ 2 ∧
      ((PyQueue.mk 2 [7, 8] : PyQueue ℕ).items.length = 2 →
        send_video_frame true (PyQueue.mk 2 [7, 8]) 9 = PyQueue.mk 2 [7, 8]) ∧
      ((PyQueue.mk 2 [7, 8] : PyQueue ℕ).items.length < 2 →
        (send_video_frame true (PyQueue.mk 2 [7, 8]) 9).items = [7, 8] ++ [9]) ∧
      (send_video_frame true (PyQueue.mk 2 [7, 8]) 9 = PyQueue.mk 2 [7, 8] ∨
        (send_video_frame true (PyQueue.mk 2 [7, 8]) 9).items = [7, 8] ++ [9])) :=
  ⟨⟨rfl, by norm_num⟩,
    C5_video_queue_drop_newest (PyQueue.mk 2 [7, 8]) [1, 2, 3] 9 rfl (by norm_num)⟩

/-! ## Claim C6 -/

/-- C6 (counterexample): the audio input queue is constructed as
`queue.Queue()` — maxsize 0, which Python treats as unbounded.  Five capture
callbacks in a row leave five resident chunks, so the queue length is not
bounded by the capacity fixed at construction (0): the queue grows without
bound while no consumer drains it. -/
theorem C6_counterexample :
    (([1, 2, 3, 4, 5].foldl (audio_callback_push true) audio_input_queue0).items.length = 5) ∧
    ¬ (([1, 2, 3, 4, 5].foldl (audio_callback_push true) audio_input_queue0).items.length
        ≤ audio_input_queue0.maxsize) := by
  constructor <;> decide

theorem audio_push_zero {α : Type} (its : List α) (a : α) :
    audio_callback_push true (PyQueue.mk 0 its) a = PyQueue.mk 0 (its ++ [a]) := by
  simp [audio_callback_push, PyQueue.put]

theorem foldl_audio_zero {α : Type} (chunks : List α) (its : List α) :
    chunks.foldl (audio_callback_push true) (PyQueue.mk 0 its) =
      PyQueue.mk 0 (its ++ chunks) := by
  induction chunks generalizing its with
  | nil => simp
  | cons c rest ih =>
    simp only [List.foldl_cons, audio_push_zero, ih, List.append_assoc,
      List.singleton_append]

/-- C6 (amended): the audio input queue is created unbounded
(`queue.Queue()`, maxsize 0).  A blocking `put` on it never actually blocks
and never drops: every chunk accepted by the capture callback is appended in
order, so no audio frame is ever discarded — but the queue length is not
bounded by the constructed capacity; it equals the number of un-consumed
chunks. -/
theorem C6_audio_queue_unbounded_never_drops {α : Type} (q : PyQueue α)
    (chunks : List α) (a : α) (hcap : q.maxsize = 0) :
    q.put a = PutResult.enqueued (PyQueue.mk 0 (q.items ++ [a])) ∧
    (chunks.foldl (audio_callback_push true) q).items = q.items ++ chunks ∧
    (chunks.foldl (audio_callback_push true) q).maxsize = 0 := by
  rcases q with ⟨ms, its⟩
  simp only at hcap
  subst hcap
  refine ⟨?_, ?_, ?_⟩
  · simp [PyQueue.put]
  · rw [foldl_audio_zero]
  · rw [foldl_audio_zero]

/-- C6 witness: the amended theorem on the constructed audio queue. -/
theorem C6_witness :
    audio_input_queue0.maxsize = 0 ∧
    (audio_input_queue0.put 7 =
      PutResult.enqueued (PyQueue.mk 0 (audio_input_queue0.items ++ [7])) ∧
    ([1, 2, 3].foldl (audio_callback_push true) audio_input_queue0).items =
      audio_input_queue0.items ++ [1, 2, 3] ∧
    ([1, 2, 3].foldl (audio_callback_push true) audio_input_queue0).maxsize = 0) :=
  ⟨rfl, C6_audio_queue_unbounded_never_drops audio_input_queue0 [1, 2, 3] 7 rfl⟩

/-! ## Claim C7 -/

/-- C7 (counterexample): the claim says every non-empty accumulator is
emitted on TURN_COMPLETE, but the code tests `strip()` truthiness: a
whitespace-only accumulator (here one TRANSCRIPTION message carrying a single
space) is non-empty yet emits nothing on TURN_COMPLETE. -/
theorem C7_counterexample :
    (processMessages ⟨"", ""⟩
        [BridgeMsg.transcription "USER" " "]).1.current_input_transcription = " " ∧
    (" " : String) ≠ "" ∧
    (processMessages ⟨"", ""⟩
        [BridgeMsg.transcription "USER" " ", BridgeMsg.turnComplete]).2 = [] := by
  refine ⟨?_, ?_, ?_⟩ <;> decide

/-- C7 (amended): on TURN_COMPLETE each accumulator that is non-blank (i.e.
non-empty after Python `strip()`) is emitted exactly once as a finalized
utterance tagged with its sender — USER for input, MODEL for output, in that
order — a blank accumulator is not emitted, and both accumulators reset to
empty; in particular the Hi/there scenario emits exactly ("USER", "Hi there")
and leaves both accumulators empty. -/
theorem C7_turn_complete_semantics (s : TranscriptState) :
    (handleMessage s BridgeMsg.turnComplete).1 = ⟨"", ""⟩ ∧
    (pyStrip s.current_input_transcription ≠ "" →
      pyStrip s.current_output_transcription ≠ "" →
      (handleMessage s BridgeMsg.turnComplete).2 =
        [("USER", s.current_input_transcription),
          ("MODEL", s.current_output_transcription)]) ∧
    (pyStrip s.current_input_transcription ≠ "" →
      pyStrip s.current_output_transcription = "" →
      (handleMessage s BridgeMsg.turnComplete).2 =
        [("USER", s.current_input_transcription)]) ∧
    (pyStrip s.current_input_transcription = "" →
      pyStrip s.current_output_transcription ≠ "" →
      (handleMessage s BridgeMsg.turnComplete).2 =
        [("MODEL", s.current_output_transcription)]) ∧
    (pyStrip s.current_input_transcription = "" →
      pyStrip s.current_output_transcription = "" →
      (handleMessage s BridgeMsg.turnComplete).2 = []) ∧
    processMessages ⟨"", ""⟩
        [BridgeMsg.transcription "USER" "Hi", BridgeMsg.transcription "USER" " there",
          BridgeMsg.turnComplete] =
      (⟨"", ""⟩, [("USER", "Hi there")]) := by
  refine ⟨rfl, ?_, ?_, ?_, ?_, by decide⟩
  all_goals intro h1 h2
  all_goals simp [handleMessage, h1, h2]

/-- C7 witness: a non-blank input accumulator and a whitespace-only output
accumulator at TURN_COMPLETE. -/
theorem C7_witness :
    pyStrip "Hi there" ≠ "" ∧ pyStrip " " = "" ∧
    (handleMessage ⟨"Hi there", " "⟩ BridgeMsg.turnComplete).2 =
      [("USER", "Hi there")] :=
  ⟨by decide, by decide,
    (C7_turn_complete_semantics ⟨"Hi there", " "⟩).2.2.1 (by decide) (by decide)⟩

/-! ## Claim C8 -/

/-- C8 (counterexample): a failing highlightObject call is not answered with
an error-text TOOL_RESPONSE — it is answered with no TOOL_RESPONSE at all,
and an error does propagate past the tool-call handling.  With no current
frame, `handle_function_call` prints and returns silently (outcome noFrame,
no exception); and in the only call context the source has — the TOOL_CALL
branch runs inside the bridge thread's already-running event loop —
`send_tool_response`'s `asyncio.run` raises RuntimeError before anything is
sent, the except branch's retry raises the same way, and the RuntimeError
escapes the branch (terminating the receive loop). -/
theorem C8_counterexample :
    handle_function_call "highlight_object" "mug" none [] [] = HfcResult.noFrame ∧
    hfc_callback none [] [] "mug" = Except.ok HfcResult.noFrame ∧
    bridge_tool_call true (hfc_callback none [] []) "mug" "call-7" =
      ([], some runtime_error_msg) :=
  ⟨rfl, rfl, rfl⟩

/-- C8 (amended): in the source's actual call context (the TOOL_CALL branch
executes inside the bridge thread's running event loop), a highlightObject
tool call sends no TOOL_RESPONSE whatsoever — whatever the callback does —
and the `asyncio.run` RuntimeError propagates out of the TOOL_CALL handling.
Only outside a running event loop would exactly one TOOL_RESPONSE carrying
the original callId be sent: error text exactly when the callback raises,
success text otherwise.  The wired handler `handle_function_call` never
raises — all its failure branches return silently — so even a working send
path would answer its failures with the success text, not an error text. -/
theorem C8_bridge_tool_call_semantics
    (cb : String → Except String HfcResult) (objectName callId : String) :
    bridge_tool_call true cb objectName callId = ([], some runtime_error_msg) ∧
    (∀ e, cb objectName = Except.error e →
      bridge_tool_call false cb objectName callId =
        ([ToolOutMsg.toolResponse callId ("Error: " ++ e)], none)) ∧
    (∀ r, cb objectName = Except.ok r →
      bridge_tool_call false cb objectName callId =
        ([ToolOutMsg.toolResponse callId ("Successfully tracking " ++ objectName)], none)) ∧
    (∀ (frame : Option Frame) (dets : List Detection) (ms : List (Detection × ℚ)),
      hfc_callback frame dets ms objectName =
        Except.ok (handle_function_call "highlight_object" objectName frame dets ms)) := by
  refine ⟨?_, ?_, ?_, fun _ _ _ => rfl⟩
  · cases h : cb objectName with
    | ok r => simp [bridge_tool_call, h, send_tool_response]
    | error e => simp [bridge_tool_call, h, send_tool_response]
  · intro e he
    simp [bridge_tool_call, he, send_tool_response]
  · intro r hr
    simp [bridge_tool_call, hr, send_tool_response]

/-- C8 witness: a callback that raises "No frame available": inside the
running loop nothing is sent and the RuntimeError escapes; outside one, the
error-text TOOL_RESPONSE with the original callId would be sent. -/
theorem C8_witness :
    bridge_tool_call true (fun _ => Except.error "No frame available") "mug" "call-9" =
      ([], some runtime_error_msg) ∧
    bridge_tool_call false (fun _ => Except.error "No frame available") "mug" "call-9" =
      ([ToolOutMsg.toolResponse "call-9" ("Error: " ++ "No frame available")], none) :=
  ⟨(C8_bridge_tool_call_semantics
      (fun _ => Except.error "No frame available") "mug" "call-9").1,
    (C8_bridge_tool_call_semantics
      (fun _ => Except.error "No frame available") "mug" "call-9").2.1
      "No frame available" rfl⟩

/-! ## Claim C9 -/

/-- C9 (counterexample): `stop()` does not join the worker threads.  With
both audio streams open, the effect trace of `stop()` — in both session
implementations — contains no thread-join action at all: it only flips
`running`, stops/closes the streams and reports status, so it can return
before the owned loops have exited. -/
theorem C9_counterexample :
    ((stop_actions_v2 true true).any StopAction.isJoin = false) ∧
    ((stop_actions_v1 true true).any StopAction.isJoin = false) := by
  decide

/-- C9 (amended): `stop()` sets `running` to false (the sole cancellation
signal), stops and closes whichever hardware streams are open, and reports
status — but performs no join on any owned thread, in either session
implementation; it merely signals the loops and may return before they have
exited. -/
theorem C9_stop_signals_without_joining (hasInput hasOutput : Bool) :
    ((stop_actions_v2 hasInput hasOutput).any StopAction.isJoin = false) ∧
    ((stop_actions_v1 hasInput hasOutput).any StopAction.isJoin = false) ∧
    StopAction.setRunningFalse ∈ stop_actions_v2 hasInput hasOutput ∧
    StopAction.setRunningFalse ∈ stop_actions_v1 hasInput hasOutput ∧
    StopAction.statusEvent "Session stopped" ∈ stop_actions_v2 hasInput hasOutput ∧
    (hasInput = true →
      StopAction.streamStop "input" ∈ stop_actions_v2 hasInput hasOutput ∧
      StopAction.streamClose "input" ∈ stop_actions_v2 hasInput hasOutput) ∧
    (hasOutput = true →
      StopAction.streamStop "output" ∈ stop_actions_v2 hasInput hasOutput ∧
      StopAction.streamClose "output" ∈ stop_actions_v2 hasInput hasOutput) := by
  cases hasInput <;> cases hasOutput <;> refine ⟨?_, ?_, ?_, ?_, ?_, ?_, ?_⟩ <;>
    simp [stop_actions_v2, stop_actions_v1, StopAction.isJoin]

/-- C9 witness: the amended theorem with both streams open. -/
theorem C9_witness :
    ((stop_actions_v2 true true).any StopAction.isJoin = false) ∧
    (StopAction.streamStop "input" ∈ stop_actions_v2 true true ∧
      StopAction.streamClose "input" ∈ stop_actions_v2 true true) ∧
    (StopAction.streamStop "output" ∈ stop_actions_v2 true true ∧
      StopAction.streamClose "output" ∈ stop_actions_v2 true true) :=
  ⟨(C9_stop_signals_without_joining true true).1,
    (C9_stop_signals_without_joining true true).2.2.2.2.2.1 rfl,
    (C9_stop_signals_without_joining true true).2.2.2.2.2.2 rfl⟩

end RHat
